import Mathlib

/-!
Shallow embedding of `entmoot/learning/tree_model.py`.

The file defines two regressor adapters, `EntingRegressor` and its subclass
`MisicRegressor`, which wrap an external LightGBM-style base estimator and a
distance-based uncertainty ("std") estimator.  The adapter code is pure
orchestration: it mutates parameter dictionaries, clones and fits the base
estimator, updates the std estimator, and dumps/normalises the fitted tree
structure.  We embed the adapter methods as pure Lean functions over an
explicit state, returning `Except` for Python exceptions, together with an
event trace recording the externally observable calls and file writes.

External collaborators (the LightGBM training routine, its per-model dump,
the `order_tree_model_dict` normaliser, the std estimator's predict) are not
part of the source file; they enter the embedding as universally quantified
function parameters, so every theorem holds for all collaborator behaviours.
-/

namespace Entmoot

/-- A Python keyword-argument value: `some n` is an integer, `none` is
Python's `None` (e.g. the default `random_state=None`). -/
abbrev PValue := Option Int

/-- A Python kwargs dictionary in insertion order, as passed to
`set_params(**params)`. -/
abbrev Params := List (String × PValue)

/-- One sample (row of the feature matrix). -/
abbrev Row := List Int

/-- A feature matrix `X`: a list of sample rows. -/
abbrev Matrix := List Row

/-- A target vector `y`. -/
abbrev Vec := List Int

/-- The raw dumped tree-model dictionary, `self.regressor_._Booster.dump_model()`.
The adapter treats it opaquely (it only serialises it and hands it to the
ordering routine), so a JSON-like association list suffices. -/
abbrev TreeDict := List (String × Int)

/-- Modelled from the spec: sklearn-style `set_params` on the external base
estimator updates the named option, keeping other options; a new key is
appended. The base estimator (`LGBMRegressor`) is an external collaborator,
described in the spec only as "a configurable, clonable regression model". -/
def updateParam (ps : Params) (kv : String × PValue) : Params :=
  if ps.any (fun p => p.1 = kv.1) then
    ps.map (fun p => if p.1 = kv.1 then kv else p)
  else
    ps ++ [kv]

/-- Modelled from the spec: the external base estimator (`LGBMRegressor`),
reduced to its configuration, which is all the adapter interacts with before
fitting. -/
structure LGBM where
  params : Params
  deriving DecidableEq, Repr

/-- Modelled from the spec: the external base estimator's `set_params`. -/
def LGBM.set_params (m : LGBM) (new : Params) : LGBM :=
  ⟨new.foldl updateParam m.params⟩

/-- Modelled from the spec: sklearn's `clone` returns a fresh, unfitted
estimator carrying the same configuration. -/
def LGBM.clone (m : LGBM) : LGBM :=
  ⟨m.params⟩

/-- Modelled from the spec: `GbmModel` (from `entmoot.learning.gbm_model`,
not under src/) is the ENTMOOT-native tree structure, built by wrapping the
canonically reordered tree-model dictionary. -/
structure GbmModel where
  ordered : TreeDict
  deriving DecidableEq, Repr

/-- Modelled from the spec: the distance-based std (uncertainty) estimator
(`DistanceBasedStd`, not under src/) is a stateful object updated from
training data and, in one variant, the exported tree structure.  Following
the spec's own testing advice, it is modelled as a recorder of the arguments
each `update` call passes it. -/
structure StdEstimator where
  updates : List (Matrix × Vec × Option GbmModel × List Nat)
  deriving DecidableEq, Repr

/-- Modelled from the spec: `update(X, y[, gbm_model], cat_column=...)` on the
std estimator; `struct` is the optional exported tree structure, absent in
Variant A's call and present in Variant B's. -/
def StdEstimator.update (s : StdEstimator) (X : Matrix) (y : Vec)
    (struct : Option GbmModel) (cat_column : List Nat) : StdEstimator :=
  ⟨s.updates ++ [(X, y, struct, cat_column)]⟩

/-- An error raised by the external training library and propagated
unchanged through the adapter. -/
abbrev UpstreamError := String

/-- The spec's error taxonomy (§7), classifying the Python exceptions by
site: `configurationError` models the `AttributeError` raised when a required
collaborator is `None` at fit/set-params/predict time, `notFitted` models the
`AttributeError` raised when `self.regressor_` is accessed before any `fit`,
and `upstream e` is a failure of the external library's own fit/predict,
propagated unchanged. -/
inductive AdapterError where
  | configurationError
  | notFitted
  | upstream (e : UpstreamError)
  deriving DecidableEq, Repr

/-- Externally observable calls and filesystem effects performed by the
adapter methods, in program order. -/
inductive Event where
  | baseSetParams (ps : Params)
  | cloneBase
  | stdUpdate (X : Matrix) (y : Vec) (struct : Option GbmModel) (cat : List Nat)
  | treeFit (X : Matrix) (y : Vec) (categorical_feature : Option (List Nat))
  | dumpModel (d : TreeDict)
  | fileWrite (path : String) (content : TreeDict)
  deriving DecidableEq, Repr

/-- The attribute state of an adapter instance (either variant: the fields of
`EntingRegressor` and `MisicRegressor` coincide).  `Model` is the type of the
external library's fitted model; `regressor_ = none` models the attribute
`self.regressor_` not existing (no `fit` call has completed). -/
structure RegressorState (Model : Type) where
  random_state : PValue
  base_estimator : Option LGBM
  std_estimator : Option StdEstimator
  cat_idx : List Nat
  regressor_ : Option Model
  deriving DecidableEq, Repr

/-- The state produced by `__init__` of either variant (with the base
estimator resolved to an external LGBM or `None`): fields stored, no
`regressor_` attribute yet. -/
def RegressorState.initial {Model : Type} (base : Option LGBM)
    (std : Option StdEstimator) (rs : PValue) (cat : List Nat) :
    RegressorState Model :=
  ⟨rs, base, std, cat, none⟩

/-- The kwargs `fit` passes to the stored base estimator's `set_params`:
`random_state=self.random_state, verbose=-1`. -/
def fitParams (rs : PValue) : Params :=
  [("random_state", rs), ("verbose", some (-1))]

/-- The optional `categorical_feature` argument of the clone's `fit` call:
the Python code passes `cat_idx` exactly when the list is truthy
(non-empty). -/
def catFeatureArg (cat : List Nat) : Option (List Nat) :=
  if cat = [] then none else some cat

/-- `EntingRegressor.fit` (Variant A): sets `random_state` and `verbose=-1`
on the stored base estimator, clones it, assigns the clone to `regressor_`,
updates the std estimator from `(X, y, cat_column=cat_idx)` with no tree
structure, and only then fits the clone, passing `categorical_feature` when
`cat_idx` is non-empty.  `train` is the external library's training routine
acting on the clone's configuration. -/
def EntingRegressor.fit {Model : Type}
    (train : Params → Matrix → Vec → Option (List Nat) → Except UpstreamError Model)
    (s : RegressorState Model) (X : Matrix) (y : Vec) :
    Except AdapterError (RegressorState Model) × List Event :=
  match s.base_estimator with
  | none => (Except.error .configurationError, [])
  | some be0 =>
    let ps := fitParams s.random_state
    let be := be0.set_params ps
    match s.std_estimator with
    | none =>
      (Except.error .configurationError, [.baseSetParams ps, .cloneBase])
    | some std =>
      let std1 := std.update X y none s.cat_idx
      let catArg := catFeatureArg s.cat_idx
      match train be.clone.params X y catArg with
      | Except.error e =>
        (Except.error (.upstream e),
         [.baseSetParams ps, .cloneBase, .stdUpdate X y none s.cat_idx])
      | Except.ok fitted =>
        (Except.ok ⟨s.random_state, some be, some std1, s.cat_idx, some fitted⟩,
         [.baseSetParams ps, .cloneBase, .stdUpdate X y none s.cat_idx,
          .treeFit X y catArg])

/-- `EntingRegressor.set_params` (inherited by `MisicRegressor`): if the
kwargs do not contain `"min_child_samples"`, that key is added with value 2
(`params.update({"min_child_samples": 2})` appends it); the result is
forwarded to the stored base estimator's `set_params`. -/
def EntingRegressor.set_params {Model : Type}
    (s : RegressorState Model) (params : Params) :
    Except AdapterError (RegressorState Model) × List Event :=
  let params1 :=
    if params.any (fun p => p.1 = "min_child_samples") then params
    else params ++ [("min_child_samples", some 2)]
  match s.base_estimator with
  | none => (Except.error .configurationError, [])
  | some be =>
    (Except.ok { s with base_estimator := some (be.set_params params1) },
     [.baseSetParams params1])

/-- The result of `predict`: either the bare mean vector, or the pair
`(mean, std)` when `return_std` is set. -/
inductive PredictResult where
  | point (mean : Vec)
  | withStd (mean : Vec) (std : Vec)
  deriving DecidableEq, Repr

/-- `EntingRegressor.predict` (inherited by `MisicRegressor`): computes
`mean = self.regressor_.predict(X)`; when `return_std` is set, additionally
computes `self.std_estimator.predict(X, scaled=scaled)` and returns the
pair.  `predictM` is the external fitted model's predict routine,
`stdPredict` the std estimator's. -/
def EntingRegressor.predict {Model : Type}
    (predictM : Model → Matrix → Except UpstreamError Vec)
    (stdPredict : StdEstimator → Matrix → Bool → Vec)
    (s : RegressorState Model) (X : Matrix)
    (return_std : Bool) (scaled : Bool) :
    Except AdapterError PredictResult :=
  match s.regressor_ with
  | none => Except.error .notFitted
  | some m =>
    match predictM m X with
    | Except.error e => Except.error (.upstream e)
    | Except.ok mean =>
      if return_std then
        match s.std_estimator with
        | none => Except.error .configurationError
        | some std => Except.ok (.withStd mean (stdPredict std X scaled))
      else
        Except.ok (.point mean)

/-- `EntingRegressor.get_gbm_model` (inherited by `MisicRegressor`): dumps
the fitted booster's tree dictionary, writes the raw dump to the fixed path
`tree_dict_next.json` in the working directory, then reorders the same dump
with `order_tree_model_dict(..., cat_column=cat_idx)` and wraps it in a
`GbmModel`.  `dump` is the external `_Booster.dump_model`, `order` is
`order_tree_model_dict` (repository code not under src/, kept abstract). -/
def EntingRegressor.get_gbm_model {Model : Type}
    (dump : Model → TreeDict) (order : TreeDict → List Nat → TreeDict)
    (s : RegressorState Model) :
    Except AdapterError GbmModel × List Event :=
  match s.regressor_ with
  | none => (Except.error .notFitted, [])
  | some m =>
    let d := dump m
    (Except.ok ⟨order d s.cat_idx⟩,
     [.dumpModel d, .fileWrite "tree_dict_next.json" d])

/-- `MisicRegressor.fit` (Variant B): sets `random_state` and `verbose=-1`
on the stored base estimator, clones it, fits the clone (passing
`categorical_feature` when `cat_idx` is non-empty), then calls
`get_gbm_model` — which writes `tree_dict_next.json` — and finally updates
the std estimator from `(X, y, gbm_model, cat_column=cat_idx)`. -/
def MisicRegressor.fit {Model : Type}
    (train : Params → Matrix → Vec → Option (List Nat) → Except UpstreamError Model)
    (dump : Model → TreeDict) (order : TreeDict → List Nat → TreeDict)
    (s : RegressorState Model) (X : Matrix) (y : Vec) :
    Except AdapterError (RegressorState Model) × List Event :=
  match s.base_estimator with
  | none => (Except.error .configurationError, [])
  | some be0 =>
    let ps := fitParams s.random_state
    let be := be0.set_params ps
    let catArg := catFeatureArg s.cat_idx
    match train be.clone.params X y catArg with
    | Except.error e =>
      (Except.error (.upstream e), [.baseSetParams ps, .cloneBase])
    | Except.ok fitted =>
      let s1 : RegressorState Model :=
        ⟨s.random_state, some be, s.std_estimator, s.cat_idx, some fitted⟩
      let pre : List Event := [.baseSetParams ps, .cloneBase, .treeFit X y catArg]
      match EntingRegressor.get_gbm_model dump order s1 with
      | (Except.error e, t) => (Except.error e, pre ++ t)
      | (Except.ok gbm, t) =>
        match s1.std_estimator with
        | none => (Except.error .configurationError, pre ++ t)
        | some std =>
          (Except.ok { s1 with
              std_estimator := some (std.update X y (some gbm) s.cat_idx) },
           pre ++ t ++ [.stdUpdate X y (some gbm) s.cat_idx])

/-- The two adapter classes; `MisicRegressor` is a Python subclass of
`EntingRegressor`. -/
inductive Variant where
  | enting
  | misic
  deriving DecidableEq, Repr

/-- A Python object that can appear as the `base_estimator` constructor
argument: `None`, an external LGBM estimator, or an adapter instance of
either class (with its stored attributes). -/
inductive PyObj where
  | pyNone
  | lgbm (m : LGBM)
  | adapter (variant : Variant) (base_estimator : PyObj)
      (std_estimator : Option StdEstimator)
      (random_state : PValue) (cat_idx : List Nat)
  deriving DecidableEq, Repr

/-- `isinstance(x, EntingRegressor)`: true for adapter instances of either
variant, since `MisicRegressor` subclasses `EntingRegressor`. -/
def isinstanceEnting : PyObj → Bool
  | .adapter .. => true
  | _ => false

/-- `isinstance(x, MisicRegressor)`: true only for `MisicRegressor`
instances. -/
def isinstanceMisic : PyObj → Bool
  | .adapter .misic _ _ _ _ => true
  | _ => false

/-- `EntingRegressor.__init__`: stores the four arguments, then, if
`base_estimator` is an instance of `EntingRegressor` (including any
`MisicRegressor`), overwrites the stored base and std estimators with the
argument's inner ones. -/
def EntingRegressor.init (base_estimator : PyObj)
    (std_estimator : Option StdEstimator)
    (random_state : PValue) (cat_idx : List Nat) : PyObj :=
  match base_estimator with
  | .adapter _ ib istd _ _ => .adapter .enting ib istd random_state cat_idx
  | _ => .adapter .enting base_estimator std_estimator random_state cat_idx

/-- `MisicRegressor.__init__`: stores the four arguments, then, if
`base_estimator` is an instance of `MisicRegressor` (only), overwrites the
stored base and std estimators with the argument's inner ones. -/
def MisicRegressor.init (base_estimator : PyObj)
    (std_estimator : Option StdEstimator)
    (random_state : PValue) (cat_idx : List Nat) : PyObj :=
  match base_estimator with
  | .adapter .misic ib istd _ _ => .adapter .misic ib istd random_state cat_idx
  | _ => .adapter .misic base_estimator std_estimator random_state cat_idx

/-! ### Concrete fixtures used by the witness theorems -/

/-- A concrete unfitted adapter state over `Model := Nat`. -/
def testState : RegressorState Nat :=
  ⟨some 7, some ⟨[]⟩, some ⟨[]⟩, [0], none⟩

/-- A concrete fitted adapter state over `Model := Nat`. -/
def testFitted : RegressorState Nat :=
  ⟨some 7, some ⟨[]⟩, some ⟨[]⟩, [0], some 5⟩

/-- A concrete external training routine that always succeeds. -/
def testTrain : Params → Matrix → Vec → Option (List Nat) → Except UpstreamError Nat :=
  fun _ _ _ _ => Except.ok 5

/-- A concrete external model dump. -/
def testDump : Nat → TreeDict :=
  fun n => [("tree", Int.ofNat n)]

/-- A concrete tree-dictionary ordering routine. -/
def testOrder : TreeDict → List Nat → TreeDict :=
  fun d _ => d.reverse

/-- A concrete external predict routine returning one value per row. -/
def testPredict : Nat → Matrix → Except UpstreamError Vec :=
  fun _ X => Except.ok (X.map (fun _ => 0))

/-- A concrete std-estimator predict routine returning one value per row. -/
def testStdPredict : StdEstimator → Matrix → Bool → Vec :=
  fun _ X _ => X.map (fun _ => 1)

/-! ### Claim theorems -/

/-- C2: on an adapter instance on which `fit` has never been called (fresh
from `__init__`, so the `regressor_` attribute does not exist), `predict`
with any flag values and `get_gbm_model` both fail with the not-fitted
error, for every variant state and all collaborator behaviours. -/
theorem predict_export_before_fit_notFitted :
    ∀ (Model : Type)
      (predictM : Model → Matrix → Except UpstreamError Vec)
      (stdPredict : StdEstimator → Matrix → Bool → Vec)
      (dump : Model → TreeDict) (order : TreeDict → List Nat → TreeDict)
      (base : Option LGBM) (std : Option StdEstimator) (rs : PValue)
      (cat : List Nat) (X : Matrix) (return_std scaled : Bool),
      EntingRegressor.predict predictM stdPredict
          (RegressorState.initial base std rs cat) X return_std scaled
        = Except.error .notFitted ∧
      EntingRegressor.get_gbm_model dump order
          (RegressorState.initial base std rs cat)
        = (Except.error .notFitted, []) := by
  intro Model predictM stdPredict dump order base std rs cat X return_std scaled
  exact ⟨rfl, rfl⟩

/-- C3: constructing an adapter with a same-variant adapter as
`base_estimator` stores exactly the argument's inner base and std
estimators (no nesting); a `base_estimator` that is not an instance of the
constructing class is stored as given. -/
theorem init_unwraps_same_variant :
    (∀ (b : PyObj) (st : Option StdEstimator) (rs : PValue) (c : List Nat)
       (st2 : Option StdEstimator) (rs2 : PValue) (c2 : List Nat),
       EntingRegressor.init (.adapter .enting b st rs c) st2 rs2 c2
         = .adapter .enting b st rs2 c2) ∧
    (∀ (b : PyObj) (st : Option StdEstimator) (rs : PValue) (c : List Nat)
       (st2 : Option StdEstimator) (rs2 : PValue) (c2 : List Nat),
       MisicRegressor.init (.adapter .misic b st rs c) st2 rs2 c2
         = .adapter .misic b st rs2 c2) ∧
    (∀ (base : PyObj) (st2 : Option StdEstimator) (rs2 : PValue) (c2 : List Nat),
       isinstanceEnting base = false →
       EntingRegressor.init base st2 rs2 c2 = .adapter .enting base st2 rs2 c2) ∧
    (∀ (base : PyObj) (st2 : Option StdEstimator) (rs2 : PValue) (c2 : List Nat),
       isinstanceMisic base = false →
       MisicRegressor.init base st2 rs2 c2 = .adapter .misic base st2 rs2 c2) := by
  refine ⟨fun _ _ _ _ _ _ _ => rfl, fun _ _ _ _ _ _ _ => rfl, ?_, ?_⟩
  · intro base st2 rs2 c2 h
    cases base with
    | pyNone => rfl
    | lgbm m => rfl
    | adapter v ib istd irs ic => simp [isinstanceEnting] at h
  · intro base st2 rs2 c2 h
    cases base with
    | pyNone => rfl
    | lgbm m => rfl
    | adapter v ib istd irs ic =>
      cases v with
      | enting => rfl
      | misic => simp [isinstanceMisic] at h

/-- Witness for C3 at concrete inputs: a plain LGBM base estimator is
stored as given by `EntingRegressor.__init__`, and an `EntingRegressor`
instance (not a `MisicRegressor`) is stored as given by
`MisicRegressor.__init__`. -/
theorem init_unwraps_same_variant_witness :
    EntingRegressor.init (.lgbm ⟨[]⟩) none (some 1) []
      = .adapter .enting (.lgbm ⟨[]⟩) none (some 1) [] ∧
    MisicRegressor.init (.adapter .enting .pyNone none none []) none (some 1) []
      = .adapter .misic (.adapter .enting .pyNone none none []) none (some 1) [] :=
  ⟨init_unwraps_same_variant.2.2.1 (.lgbm ⟨[]⟩) none (some 1) [] rfl,
   init_unwraps_same_variant.2.2.2 (.adapter .enting .pyNone none none [])
     none (some 1) [] rfl⟩

/-- C9: unwrapping at construction is asymmetric: `EntingRegressor.__init__`
unwraps a `MisicRegressor` argument (a subclass instance passes the
`isinstance` check), while `MisicRegressor.__init__` stores a plain
`EntingRegressor` argument as the base estimator without unwrapping. -/
theorem init_unwrap_asymmetric :
    (∀ (b : PyObj) (st : Option StdEstimator) (rs : PValue) (c : List Nat)
       (st2 : Option StdEstimator) (rs2 : PValue) (c2 : List Nat),
       EntingRegressor.init (.adapter .misic b st rs c) st2 rs2 c2
         = .adapter .enting b st rs2 c2) ∧
    (∀ (b : PyObj) (st : Option StdEstimator) (rs : PValue) (c : List Nat)
       (st2 : Option StdEstimator) (rs2 : PValue) (c2 : List Nat),
       MisicRegressor.init (.adapter .enting b st rs c) st2 rs2 c2
         = .adapter .misic (.adapter .enting b st rs c) st2 rs2 c2) :=
  ⟨fun _ _ _ _ _ _ _ => rfl, fun _ _ _ _ _ _ _ => rfl⟩

/-- C4: `set_params` forwards the kwargs to the stored base estimator's
`set_params` unchanged when they contain `"min_child_samples"`, and with
exactly that one key appended with value 2 when they do not; no other key
is added or altered. -/
theorem set_params_min_child_samples_default :
    ∀ (Model : Type) (s : RegressorState Model) (params : Params) (be : LGBM),
      s.base_estimator = some be →
      (params.any (fun p => p.1 = "min_child_samples") = true →
        EntingRegressor.set_params s params
          = (Except.ok { s with base_estimator := some (be.set_params params) },
             [.baseSetParams params])) ∧
      (params.any (fun p => p.1 = "min_child_samples") = false →
        EntingRegressor.set_params s params
          = (Except.ok
               { s with base_estimator :=
                          some (be.set_params (params ++ [("min_child_samples", some 2)])) },
             [.baseSetParams (params ++ [("min_child_samples", some 2)])])) := by
  intro Model s params be hbe
  constructor
  · intro h
    simp [EntingRegressor.set_params, h, hbe]
  · intro h
    simp [EntingRegressor.set_params, h, hbe]

/-- Witness for C4 at concrete inputs: with the key absent it is appended
with value 2; with the key present the kwargs are forwarded unchanged. -/
theorem set_params_min_child_samples_default_witness :
    EntingRegressor.set_params testState [("n_estimators", some 10)]
      = (Except.ok
           { testState with base_estimator :=
                              some (LGBM.set_params ⟨[]⟩
                                [("n_estimators", some 10), ("min_child_samples", some 2)]) },
         [.baseSetParams [("n_estimators", some 10), ("min_child_samples", some 2)]]) ∧
    EntingRegressor.set_params testState [("min_child_samples", some 9)]
      = (Except.ok
           { testState with base_estimator :=
                              some (LGBM.set_params ⟨[]⟩ [("min_child_samples", some 9)]) },
         [.baseSetParams [("min_child_samples", some 9)]]) :=
  ⟨(set_params_min_child_samples_default Nat testState
      [("n_estimators", some 10)] ⟨[]⟩ rfl).2 rfl,
   (set_params_min_child_samples_default Nat testState
      [("min_child_samples", some 9)] ⟨[]⟩ rfl).1 rfl⟩

/-- C5: on every fitted adapter state, `get_gbm_model` writes the raw
dumped tree dictionary to the fixed path `tree_dict_next.json` and returns
the `GbmModel` wrapping the reordering of that same dump (the write event
precedes the normalised result's production), for all collaborator
behaviours. -/
theorem get_gbm_model_writes_fixed_file :
    ∀ (Model : Type) (dump : Model → TreeDict)
      (order : TreeDict → List Nat → TreeDict)
      (s : RegressorState Model) (m : Model),
      s.regressor_ = some m →
      EntingRegressor.get_gbm_model dump order s
        = (Except.ok ⟨order (dump m) s.cat_idx⟩,
           [.dumpModel (dump m), .fileWrite "tree_dict_next.json" (dump m)]) := by
  intro Model dump order s m hm
  simp [EntingRegressor.get_gbm_model, hm]

/-- Witness for C5 at concrete inputs. -/
theorem get_gbm_model_writes_fixed_file_witness :
    EntingRegressor.get_gbm_model testDump testOrder testFitted
      = (Except.ok ⟨testOrder (testDump 5) [0]⟩,
         [.dumpModel (testDump 5), .fileWrite "tree_dict_next.json" (testDump 5)]) :=
  get_gbm_model_writes_fixed_file Nat testDump testOrder testFitted 5 rfl

/-- Additional fixtures for the error-path witnesses. -/
def noBaseState : RegressorState Nat := ⟨none, none, none, [], none⟩

/-- A state with a base estimator but no std estimator. -/
def noStdState : RegressorState Nat := ⟨some 7, some ⟨[]⟩, none, [0], none⟩

/-- A concrete external training routine that always fails. -/
def failTrain : Params → Matrix → Vec → Option (List Nat) → Except UpstreamError Nat :=
  fun _ _ _ _ => Except.error "boom"

/-- A concrete external predict routine that always fails. -/
def failPredict : Nat → Matrix → Except UpstreamError Vec :=
  fun _ _ => Except.error "boom"

/-- C1: in Variant A (`EntingRegressor.fit`) the std-estimator update occurs
strictly before the tree-ensemble fit in the event trace and carries no tree
structure — indeed no `stdUpdate` event of any Variant A execution ever
carries one — while in Variant B (`MisicRegressor.fit`) the tree-ensemble
fit comes first, the structure is exported, and the std-estimator update
then receives the exported structure. -/
theorem fit_update_order_by_variant :
    (∀ (Model : Type)
       (train : Params → Matrix → Vec → Option (List Nat) → Except UpstreamError Model)
       (s : RegressorState Model) (X : Matrix) (y : Vec)
       (be0 : LGBM) (std : StdEstimator) (fitted : Model),
       s.base_estimator = some be0 → s.std_estimator = some std →
       train ((be0.set_params (fitParams s.random_state)).clone).params X y
           (catFeatureArg s.cat_idx) = Except.ok fitted →
       (EntingRegressor.fit train s X y).2
         = [.baseSetParams (fitParams s.random_state), .cloneBase,
            .stdUpdate X y none s.cat_idx,
            .treeFit X y (catFeatureArg s.cat_idx)]) ∧
    (∀ (Model : Type)
       (train : Params → Matrix → Vec → Option (List Nat) → Except UpstreamError Model)
       (s : RegressorState Model) (X : Matrix) (y : Vec)
       (X2 : Matrix) (y2 : Vec) (struct : Option GbmModel) (cat2 : List Nat),
       Event.stdUpdate X2 y2 struct cat2 ∈ (EntingRegressor.fit train s X y).2 →
       struct = none) ∧
    (∀ (Model : Type)
       (train : Params → Matrix → Vec → Option (List Nat) → Except UpstreamError Model)
       (dump : Model → TreeDict) (order : TreeDict → List Nat → TreeDict)
       (s : RegressorState Model) (X : Matrix) (y : Vec)
       (be0 : LGBM) (std : StdEstimator) (fitted : Model),
       s.base_estimator = some be0 → s.std_estimator = some std →
       train ((be0.set_params (fitParams s.random_state)).clone).params X y
           (catFeatureArg s.cat_idx) = Except.ok fitted →
       (MisicRegressor.fit train dump order s X y).2
         = [.baseSetParams (fitParams s.random_state), .cloneBase,
            .treeFit X y (catFeatureArg s.cat_idx),
            .dumpModel (dump fitted),
            .fileWrite "tree_dict_next.json" (dump fitted),
            .stdUpdate X y (some ⟨order (dump fitted) s.cat_idx⟩) s.cat_idx]) := by
  refine ⟨?_, ?_, ?_⟩
  · intro Model train s X y be0 std fitted hbe hstd htr
    simp [EntingRegressor.fit, hbe, hstd, htr]
  · intro Model train s X y X2 y2 struct cat2 hmem
    rcases hbe : s.base_estimator with _ | be0
    · simp [EntingRegressor.fit, hbe] at hmem
    · rcases hstd : s.std_estimator with _ | std
      · simp [EntingRegressor.fit, hbe, hstd] at hmem
      · rcases htr : train ((be0.set_params (fitParams s.random_state)).clone).params
            X y (catFeatureArg s.cat_idx) with e | f
        · simp [EntingRegressor.fit, hbe, hstd, htr] at hmem
          exact hmem.2.2.1
        · simp [EntingRegressor.fit, hbe, hstd, htr] at hmem
          exact hmem.2.2.1
  · intro Model train dump order s X y be0 std fitted hbe hstd htr
    simp [MisicRegressor.fit, EntingRegressor.get_gbm_model, hbe, hstd, htr]

/-- Witness for C1 at concrete inputs, covering both variants. -/
theorem fit_update_order_by_variant_witness :
    (EntingRegressor.fit testTrain testState [[1]] [2]).2
      = [.baseSetParams (fitParams testState.random_state), .cloneBase,
         .stdUpdate [[1]] [2] none testState.cat_idx,
         .treeFit [[1]] [2] (catFeatureArg testState.cat_idx)] ∧
    (MisicRegressor.fit testTrain testDump testOrder testState [[1]] [2]).2
      = [.baseSetParams (fitParams testState.random_state), .cloneBase,
         .treeFit [[1]] [2] (catFeatureArg testState.cat_idx),
         .dumpModel (testDump 5),
         .fileWrite "tree_dict_next.json" (testDump 5),
         .stdUpdate [[1]] [2] (some ⟨testOrder (testDump 5) testState.cat_idx⟩)
           testState.cat_idx] :=
  ⟨fit_update_order_by_variant.1 Nat testTrain testState [[1]] [2] ⟨[]⟩ ⟨[]⟩ 5
     rfl rfl rfl,
   fit_update_order_by_variant.2.2 Nat testTrain testDump testOrder testState
     [[1]] [2] ⟨[]⟩ ⟨[]⟩ 5 rfl rfl rfl⟩

/-- C6: in both variants, a successful `fit(X, y)` sets
`random_state`/`verbose=-1` on the stored base estimator, trains the clone
of that updated estimator on `(X, y)` — passing `categorical_feature`
exactly when `cat_idx` is non-empty — and replaces `regressor_` wholesale
with the newly fitted model, whatever it held before. -/
theorem fit_clones_and_replaces :
    (∀ (Model : Type)
       (train : Params → Matrix → Vec → Option (List Nat) → Except UpstreamError Model)
       (s : RegressorState Model) (X : Matrix) (y : Vec)
       (be0 : LGBM) (std : StdEstimator) (fitted : Model),
       s.base_estimator = some be0 → s.std_estimator = some std →
       train ((be0.set_params (fitParams s.random_state)).clone).params X y
           (catFeatureArg s.cat_idx) = Except.ok fitted →
       EntingRegressor.fit train s X y
         = (Except.ok ⟨s.random_state, some (be0.set_params (fitParams s.random_state)),
              some (std.update X y none s.cat_idx), s.cat_idx, some fitted⟩,
            [.baseSetParams (fitParams s.random_state), .cloneBase,
             .stdUpdate X y none s.cat_idx,
             .treeFit X y (catFeatureArg s.cat_idx)])) ∧
    (∀ (Model : Type)
       (train : Params → Matrix → Vec → Option (List Nat) → Except UpstreamError Model)
       (dump : Model → TreeDict) (order : TreeDict → List Nat → TreeDict)
       (s : RegressorState Model) (X : Matrix) (y : Vec)
       (be0 : LGBM) (std : StdEstimator) (fitted : Model),
       s.base_estimator = some be0 → s.std_estimator = some std →
       train ((be0.set_params (fitParams s.random_state)).clone).params X y
           (catFeatureArg s.cat_idx) = Except.ok fitted →
       MisicRegressor.fit train dump order s X y
         = (Except.ok ⟨s.random_state, some (be0.set_params (fitParams s.random_state)),
              some (std.update X y (some ⟨order (dump fitted) s.cat_idx⟩) s.cat_idx),
              s.cat_idx, some fitted⟩,
            [.baseSetParams (fitParams s.random_state), .cloneBase,
             .treeFit X y (catFeatureArg s.cat_idx),
             .dumpModel (dump fitted),
             .fileWrite "tree_dict_next.json" (dump fitted),
             .stdUpdate X y (some ⟨order (dump fitted) s.cat_idx⟩) s.cat_idx])) ∧
    (∀ cat : List Nat,
       (cat = [] → catFeatureArg cat = none) ∧
       (cat ≠ [] → catFeatureArg cat = some cat)) := by
  refine ⟨?_, ?_, ?_⟩
  · intro Model train s X y be0 std fitted hbe hstd htr
    simp [EntingRegressor.fit, hbe, hstd, htr]
  · intro Model train dump order s X y be0 std fitted hbe hstd htr
    simp [MisicRegressor.fit, EntingRegressor.get_gbm_model, hbe, hstd, htr]
  · intro cat
    constructor
    · intro h
      simp [catFeatureArg, h]
    · intro h
      simp [catFeatureArg, h]

/-- Witness for C6 at concrete inputs, covering both variants (the starting
state is unfitted; a second application starting from a fitted state would
be identical since the conclusion does not mention the previous
`regressor_`). -/
theorem fit_clones_and_replaces_witness :
    EntingRegressor.fit testTrain testState [[1]] [2]
      = (Except.ok ⟨testState.random_state,
           some (LGBM.set_params ⟨[]⟩ (fitParams testState.random_state)),
           some (StdEstimator.update ⟨[]⟩ [[1]] [2] none testState.cat_idx),
           testState.cat_idx, some 5⟩,
         [.baseSetParams (fitParams testState.random_state), .cloneBase,
          .stdUpdate [[1]] [2] none testState.cat_idx,
          .treeFit [[1]] [2] (catFeatureArg testState.cat_idx)]) ∧
    MisicRegressor.fit testTrain testDump testOrder testState [[1]] [2]
      = (Except.ok ⟨testState.random_state,
           some (LGBM.set_params ⟨[]⟩ (fitParams testState.random_state)),
           some (StdEstimator.update ⟨[]⟩ [[1]] [2]
             (some ⟨testOrder (testDump 5) testState.cat_idx⟩) testState.cat_idx),
           testState.cat_idx, some 5⟩,
         [.baseSetParams (fitParams testState.random_state), .cloneBase,
          .treeFit [[1]] [2] (catFeatureArg testState.cat_idx),
          .dumpModel (testDump 5),
          .fileWrite "tree_dict_next.json" (testDump 5),
          .stdUpdate [[1]] [2] (some ⟨testOrder (testDump 5) testState.cat_idx⟩)
            testState.cat_idx]) :=
  ⟨fit_clones_and_replaces.1 Nat testTrain testState [[1]] [2] ⟨[]⟩ ⟨[]⟩ 5
     rfl rfl rfl,
   fit_clones_and_replaces.2.1 Nat testTrain testDump testOrder testState
     [[1]] [2] ⟨[]⟩ ⟨[]⟩ 5 rfl rfl rfl⟩

/-- C7: after a successful `fit(X, y)`, and given the spec's collaborator
contracts (the external model's predict and the std estimator's predict
return one value per input row), `predict(X2)` without `return_std` returns
the point-prediction vector of length `X2.length`, and with `return_std`
returns the pair whose second component is exactly the std estimator's
predict at the given `scaled` flag, with the same row count as the first. -/
theorem fit_then_predict_shapes :
    ∀ (Model : Type)
      (train : Params → Matrix → Vec → Option (List Nat) → Except UpstreamError Model)
      (predictM : Model → Matrix → Except UpstreamError Vec)
      (stdPredict : StdEstimator → Matrix → Bool → Vec)
      (s : RegressorState Model) (X X2 : Matrix) (y : Vec)
      (be0 : LGBM) (std : StdEstimator) (fitted : Model) (mean : Vec) (scaled : Bool),
      s.base_estimator = some be0 → s.std_estimator = some std →
      train ((be0.set_params (fitParams s.random_state)).clone).params X y
          (catFeatureArg s.cat_idx) = Except.ok fitted →
      predictM fitted X2 = Except.ok mean →
      mean.length = X2.length →
      (stdPredict (std.update X y none s.cat_idx) X2 scaled).length = X2.length →
      ∃ s2, (EntingRegressor.fit train s X y).1 = Except.ok s2 ∧
        EntingRegressor.predict predictM stdPredict s2 X2 false scaled
          = Except.ok (.point mean) ∧
        mean.length = X2.length ∧
        EntingRegressor.predict predictM stdPredict s2 X2 true scaled
          = Except.ok (.withStd mean (stdPredict (std.update X y none s.cat_idx) X2 scaled)) ∧
        (stdPredict (std.update X y none s.cat_idx) X2 scaled).length = mean.length := by
  intro Model train predictM stdPredict s X X2 y be0 std fitted mean scaled
    hbe hstd htr hp hlen hstdlen
  refine ⟨⟨s.random_state, some (be0.set_params (fitParams s.random_state)),
      some (std.update X y none s.cat_idx), s.cat_idx, some fitted⟩, ?_, ?_, hlen, ?_, ?_⟩
  · simp [EntingRegressor.fit, hbe, hstd, htr]
  · simp [EntingRegressor.predict, hp]
  · simp [EntingRegressor.predict, hp]
  · rw [hstdlen, hlen]

/-- Witness for C7 at concrete inputs. -/
theorem fit_then_predict_shapes_witness :
    ∃ s2, (EntingRegressor.fit testTrain testState [[1]] [2]).1 = Except.ok s2 ∧
      EntingRegressor.predict testPredict testStdPredict s2 [[3], [4]] false true
        = Except.ok (.point [0, 0]) ∧
      ([0, 0] : Vec).length = ([[3], [4]] : Matrix).length ∧
      EntingRegressor.predict testPredict testStdPredict s2 [[3], [4]] true true
        = Except.ok (.withStd [0, 0]
            (testStdPredict (StdEstimator.update ⟨[]⟩ [[1]] [2] none testState.cat_idx)
              [[3], [4]] true)) ∧
      (testStdPredict (StdEstimator.update ⟨[]⟩ [[1]] [2] none testState.cat_idx)
          [[3], [4]] true).length = ([0, 0] : Vec).length :=
  fit_then_predict_shapes Nat testTrain testPredict testStdPredict testState
    [[1]] [[3], [4]] [2] ⟨[]⟩ ⟨[]⟩ 5 [0, 0] true rfl rfl rfl rfl rfl rfl

/-- C8: a missing base estimator or missing std estimator (`None`) makes
`fit` of either variant fail with the configuration error, and failures of
the external library's own fit or predict are propagated to the caller
unchanged as `upstream` errors. -/
theorem fit_errors_and_propagation :
    (∀ (Model : Type)
       (train : Params → Matrix → Vec → Option (List Nat) → Except UpstreamError Model)
       (s : RegressorState Model) (X : Matrix) (y : Vec),
       s.base_estimator = none →
       EntingRegressor.fit train s X y = (Except.error .configurationError, [])) ∧
    (∀ (Model : Type)
       (train : Params → Matrix → Vec → Option (List Nat) → Except UpstreamError Model)
       (s : RegressorState Model) (X : Matrix) (y : Vec) (be0 : LGBM),
       s.base_estimator = some be0 → s.std_estimator = none →
       (EntingRegressor.fit train s X y).1 = Except.error .configurationError) ∧
    (∀ (Model : Type)
       (train : Params → Matrix → Vec → Option (List Nat) → Except UpstreamError Model)
       (dump : Model → TreeDict) (order : TreeDict → List Nat → TreeDict)
       (s : RegressorState Model) (X : Matrix) (y : Vec),
       s.base_estimator = none →
       MisicRegressor.fit train dump order s X y
         = (Except.error .configurationError, [])) ∧
    (∀ (Model : Type)
       (train : Params → Matrix → Vec → Option (List Nat) → Except UpstreamError Model)
       (dump : Model → TreeDict) (order : TreeDict → List Nat → TreeDict)
       (s : RegressorState Model) (X : Matrix) (y : Vec) (be0 : LGBM) (fitted : Model),
       s.base_estimator = some be0 → s.std_estimator = none →
       train ((be0.set_params (fitParams s.random_state)).clone).params X y
           (catFeatureArg s.cat_idx) = Except.ok fitted →
       (MisicRegressor.fit train dump order s X y).1
         = Except.error .configurationError) ∧
    (∀ (Model : Type)
       (train : Params → Matrix → Vec → Option (List Nat) → Except UpstreamError Model)
       (s : RegressorState Model) (X : Matrix) (y : Vec)
       (be0 : LGBM) (std : StdEstimator) (e : UpstreamError),
       s.base_estimator = some be0 → s.std_estimator = some std →
       train ((be0.set_params (fitParams s.random_state)).clone).params X y
           (catFeatureArg s.cat_idx) = Except.error e →
       (EntingRegressor.fit train s X y).1 = Except.error (.upstream e)) ∧
    (∀ (Model : Type)
       (train : Params → Matrix → Vec → Option (List Nat) → Except UpstreamError Model)
       (dump : Model → TreeDict) (order : TreeDict → List Nat → TreeDict)
       (s : RegressorState Model) (X : Matrix) (y : Vec)
       (be0 : LGBM) (e : UpstreamError),
       s.base_estimator = some be0 →
       train ((be0.set_params (fitParams s.random_state)).clone).params X y
           (catFeatureArg s.cat_idx) = Except.error e →
       (MisicRegressor.fit train dump order s X y).1 = Except.error (.upstream e)) ∧
    (∀ (Model : Type)
       (predictM : Model → Matrix → Except UpstreamError Vec)
       (stdPredict : StdEstimator → Matrix → Bool → Vec)
       (s : RegressorState Model) (X : Matrix) (return_std scaled : Bool)
       (m : Model) (e : UpstreamError),
       s.regressor_ = some m → predictM m X = Except.error e →
       EntingRegressor.predict predictM stdPredict s X return_std scaled
         = Except.error (.upstream e)) := by
  refine ⟨?_, ?_, ?_, ?_, ?_, ?_, ?_⟩
  · intro Model train s X y hbe
    simp [EntingRegressor.fit, hbe]
  · intro Model train s X y be0 hbe hstd
    simp [EntingRegressor.fit, hbe, hstd]
  · intro Model train dump order s X y hbe
    simp [MisicRegressor.fit, hbe]
  · intro Model train dump order s X y be0 fitted hbe hstd htr
    simp [MisicRegressor.fit, EntingRegressor.get_gbm_model, hbe, hstd, htr]
  · intro Model train s X y be0 std e hbe hstd htr
    simp [EntingRegressor.fit, hbe, hstd, htr]
  · intro Model train dump order s X y be0 e hbe htr
    simp [MisicRegressor.fit, hbe, htr]
  · intro Model predictM stdPredict s X return_std scaled m e hm hp
    simp [EntingRegressor.predict, hm, hp]

/-- Witness for C8 at concrete inputs, covering the missing-base,
missing-std and both propagation cases. -/
theorem fit_errors_and_propagation_witness :
    EntingRegressor.fit testTrain noBaseState [[1]] [2]
      = (Except.error .configurationError, []) ∧
    (EntingRegressor.fit testTrain noStdState [[1]] [2]).1
      = Except.error .configurationError ∧
    (MisicRegressor.fit testTrain testDump testOrder noStdState [[1]] [2]).1
      = Except.error .configurationError ∧
    (EntingRegressor.fit failTrain testState [[1]] [2]).1
      = Except.error (.upstream "boom") ∧
    EntingRegressor.predict failPredict testStdPredict testFitted [[1]] false true
      = Except.error (.upstream "boom") :=
  ⟨fit_errors_and_propagation.1 Nat testTrain noBaseState [[1]] [2] rfl,
   fit_errors_and_propagation.2.1 Nat testTrain noStdState [[1]] [2] ⟨[]⟩ rfl rfl,
   fit_errors_and_propagation.2.2.2.1 Nat testTrain testDump testOrder noStdState
     [[1]] [2] ⟨[]⟩ 5 rfl rfl rfl,
   fit_errors_and_propagation.2.2.2.2.1 Nat failTrain testState [[1]] [2]
     ⟨[]⟩ ⟨[]⟩ "boom" rfl rfl rfl,
   fit_errors_and_propagation.2.2.2.2.2.2 Nat failPredict testStdPredict testFitted
     [[1]] false true 5 "boom" rfl rfl⟩

/-- C10: every successful `MisicRegressor.fit` writes the fixed-name file
`tree_dict_next.json`: its trace embeds the trace of `get_gbm_model` (the
export routine it invokes on the freshly fitted state), which contains the
file-write event, so the filesystem effect is not confined to explicit
export calls. -/
theorem misic_fit_writes_file :
    ∀ (Model : Type)
      (train : Params → Matrix → Vec → Option (List Nat) → Except UpstreamError Model)
      (dump : Model → TreeDict) (order : TreeDict → List Nat → TreeDict)
      (s : RegressorState Model) (X : Matrix) (y : Vec)
      (be0 : LGBM) (std : StdEstimator) (fitted : Model),
      s.base_estimator = some be0 → s.std_estimator = some std →
      train ((be0.set_params (fitParams s.random_state)).clone).params X y
          (catFeatureArg s.cat_idx) = Except.ok fitted →
      (∃ s2, (MisicRegressor.fit train dump order s X y).1 = Except.ok s2) ∧
      Event.fileWrite "tree_dict_next.json" (dump fitted)
        ∈ (MisicRegressor.fit train dump order s X y).2 ∧
      (MisicRegressor.fit train dump order s X y).2
        = [.baseSetParams (fitParams s.random_state), .cloneBase,
           .treeFit X y (catFeatureArg s.cat_idx)]
          ++ (EntingRegressor.get_gbm_model dump order
                ⟨s.random_state, some (be0.set_params (fitParams s.random_state)),
                 s.std_estimator, s.cat_idx, some fitted⟩).2
          ++ [.stdUpdate X y (some ⟨order (dump fitted) s.cat_idx⟩) s.cat_idx] := by
  intro Model train dump order s X y be0 std fitted hbe hstd htr
  refine ⟨⟨⟨s.random_state, some (be0.set_params (fitParams s.random_state)),
      some (std.update X y (some ⟨order (dump fitted) s.cat_idx⟩) s.cat_idx),
      s.cat_idx, some fitted⟩, ?_⟩, ?_, ?_⟩ <;>
    simp [MisicRegressor.fit, EntingRegressor.get_gbm_model, hbe, hstd, htr]

/-- Witness for C10 at concrete inputs. -/
theorem misic_fit_writes_file_witness :
    (∃ s2, (MisicRegressor.fit testTrain testDump testOrder testState [[1]] [2]).1
       = Except.ok s2) ∧
    Event.fileWrite "tree_dict_next.json" (testDump 5)
      ∈ (MisicRegressor.fit testTrain testDump testOrder testState [[1]] [2]).2 ∧
    (MisicRegressor.fit testTrain testDump testOrder testState [[1]] [2]).2
      = [.baseSetParams (fitParams testState.random_state), .cloneBase,
         .treeFit [[1]] [2] (catFeatureArg testState.cat_idx)]
        ++ (EntingRegressor.get_gbm_model testDump testOrder
              ⟨testState.random_state,
               some (LGBM.set_params ⟨[]⟩ (fitParams testState.random_state)),
               testState.std_estimator, testState.cat_idx, some 5⟩).2
        ++ [.stdUpdate [[1]] [2] (some ⟨testOrder (testDump 5) testState.cat_idx⟩)
             testState.cat_idx] :=
  misic_fit_writes_file Nat testTrain testDump testOrder testState [[1]] [2]
    ⟨[]⟩ ⟨[]⟩ 5 rfl rfl rfl

end Entmoot
